import Mathlib

/-!
Shallow embedding of the image-converter core of this repository
(`src/components/features/image-converter/utils/image-utils.js`):
the byte-signature table, the format sniffer `detectActualFileType`,
the validators `validateFile` / `validateFileWithSignature`, and the
conversion pipeline `convertImage`.

Bytes are modelled as `Nat` (each < 256 in practice); a JS `Uint8Array`
read at an out-of-range index yields `undefined`, which is `!==` any
number, so byte access is modelled with `List.getElem?` and an
out-of-range read (`none`) never equals a signature byte (`some b`).
Strings are Lean `String`s; JS `String.prototype.startsWith`,
`includes` and truthiness of strings are modelled explicitly below.
-/

namespace ImageUtils

/-- JS `pat.isPrefixOf`-style check: does `l` begin with `pat`?
Models matching a pattern at the start of a character/byte sequence. -/
def beginsWith [BEq α] : List α → List α → Bool
  | [], _ => true
  | _ :: _, [] => false
  | p :: ps, x :: xs => p == x && beginsWith ps xs

/-- Models JS `String.prototype.includes` / array "contains sublist" at the
list level: some suffix of `l` begins with `pat`. -/
def listContains [BEq α] (pat l : List α) : Bool :=
  (List.range (l.length + 1)).any fun i => beginsWith pat (l.drop i)

/-- Models JS `s.includes(pat)` on strings (all strings involved are ASCII,
so code-unit and character indexing agree). -/
def strContains (s pat : String) : Bool :=
  listContains pat.data s.data

/-- Models JS `s.startsWith(pre)`. -/
def strStartsWith (s pre : String) : Bool :=
  beginsWith pre.data s.data

/-- Models the JS idiom `x?.name || y`: `undefined`, and the empty string
(falsy), both fall back to `y`. -/
def jsOrElse (x : Option String) (y : String) : String :=
  match x with
  | some s => if s == "" then y else s
  | none => y

/-- One entry of the `FILE_SIGNATURES` table: leading-byte signature,
resulting MIME type and display name, and the optional deeper
`additionalCheck` predicate on the read byte window. -/
structure FormatSig where
  signature : List Nat
  mimeType : String
  name : String
  additionalCheck : Option (List Nat → Bool) := none

/-- `additionalCheck` of the `webp` entry: bytes 8..11 must be "WEBP".
JS `bytes[8] === 0x57` on a too-short buffer compares `undefined` to a
number and is false, hence `getElem?` against `some`. -/
def webpCheck (bytes : List Nat) : Bool :=
  bytes[8]? == some 0x57 && bytes[9]? == some 0x45 &&
  bytes[10]? == some 0x42 && bytes[11]? == some 0x50

/-- `additionalCheck` of the `avif` entry: the text of bytes 4..11 must
contain "ftyp" and "avif" (JS `String.fromCharCode(...bytes.slice(4,12))`
followed by two `includes` calls, modelled at the byte level; the byte
lists spell "ftyp" and "avif"). -/
def avifCheck (bytes : List Nat) : Bool :=
  let window := (bytes.drop 4).take 8
  listContains [0x66, 0x74, 0x79, 0x70] window &&
  listContains [0x61, 0x76, 0x69, 0x66] window

/-- The `FILE_SIGNATURES` table, in `Object.entries` order (string keys
iterate in insertion order): jpeg, png, gif87a, gif89a, webp, bmp, ico,
avif. -/
def FILE_SIGNATURES : List FormatSig :=
  [ { signature := [0xff, 0xd8, 0xff], mimeType := "image/jpeg", name := "JPEG" },
    { signature := [0x89, 0x50, 0x4e, 0x47, 0x0d, 0x0a, 0x1a, 0x0a],
      mimeType := "image/png", name := "PNG" },
    { signature := [0x47, 0x49, 0x46, 0x38, 0x37, 0x61], mimeType := "image/gif", name := "GIF" },
    { signature := [0x47, 0x49, 0x46, 0x38, 0x39, 0x61], mimeType := "image/gif", name := "GIF" },
    { signature := [0x52, 0x49, 0x46, 0x46], mimeType := "image/webp", name := "WebP",
      additionalCheck := some webpCheck },
    { signature := [0x42, 0x4d], mimeType := "image/bmp", name := "BMP" },
    { signature := [0x00, 0x00, 0x01, 0x00], mimeType := "image/x-icon", name := "ICO" },
    { signature := [0x00, 0x00, 0x00], mimeType := "image/avif", name := "AVIF",
      additionalCheck := some avifCheck } ]

/-- One entry of `INPUT_FORMATS`. -/
structure InputFormat where
  name : String
  extensions : List String
  mimeType : String

/-- The `INPUT_FORMATS` table (supported input formats). -/
def INPUT_FORMATS : List InputFormat :=
  [ { name := "JPEG", extensions := [".jpg", ".jpeg"], mimeType := "image/jpeg" },
    { name := "PNG", extensions := [".png"], mimeType := "image/png" },
    { name := "WebP", extensions := [".webp"], mimeType := "image/webp" },
    { name := "GIF", extensions := [".gif"], mimeType := "image/gif" },
    { name := "BMP", extensions := [".bmp"], mimeType := "image/bmp" },
    { name := "SVG", extensions := [".svg"], mimeType := "image/svg+xml" },
    { name := "ICO", extensions := [".ico"], mimeType := "image/x-icon" },
    { name := "AVIF", extensions := [".avif"], mimeType := "image/avif" } ]

/-- The signature loop of `detectActualFileType`: every byte of
`signature` equals the byte at the same offset of the buffer
(out-of-range reads are `none` and never match). -/
def sigMatches (bytes sig : List Nat) : Bool :=
  (List.range sig.length).all fun i => bytes[i]? == sig[i]?

/-- Does one table entry cause `detectActualFileType` to resolve on this
buffer: the leading bytes match `signature`, and `additionalCheck`
passes when present (when it fails, the JS loop falls through to the
next entry). -/
def descrMatches (bytes : List Nat) (d : FormatSig) : Bool :=
  sigMatches bytes d.signature &&
    (match d.additionalCheck with
     | some check => check bytes
     | none => true)

/-- The sniff result `{ mimeType, name, detectedFrom }`. -/
structure SniffResult where
  mimeType : String
  name : String
  detectedFrom : String
deriving Repr, DecidableEq

/-- Byte patterns of the SVG text markers "<?xml", "<svg",
"<!DOCTYPE svg" (ASCII). -/
def xmlDeclBytes : List Nat := [0x3c, 0x3f, 0x78, 0x6d, 0x6c]

def svgTagBytes : List Nat := [0x3c, 0x73, 0x76, 0x67]

def doctypeSvgBytes : List Nat :=
  [0x3c, 0x21, 0x44, 0x4f, 0x43, 0x54, 0x59, 0x50, 0x45, 0x20, 0x73, 0x76, 0x67]

/-- The text-based SVG fallback of `detectActualFileType`: the decoded
first bytes contain "<?xml", "<svg" or "<!DOCTYPE svg" (the decode of
`String.fromCharCode` is injective on bytes, so the check is byte-level). -/
def hasSvgMarker (bytes : List Nat) : Bool :=
  listContains xmlDeclBytes bytes || listContains svgTagBytes bytes ||
  listContains doctypeSvgBytes bytes

/-- The body of `detectActualFileType`'s `onload` handler, applied to the
read byte window: first matching `FILE_SIGNATURES` entry wins, then the
SVG text fallback, else `null`. -/
def detectBytes (bytes : List Nat) : Option SniffResult :=
  match FILE_SIGNATURES.find? (descrMatches bytes) with
  | some d => some { mimeType := d.mimeType, name := d.name, detectedFrom := "file-signature" }
  | none =>
    if hasSvgMarker bytes then
      some { mimeType := "image/svg+xml", name := "SVG", detectedFrom := "file-signature" }
    else
      none

/-- Outcome of the `FileReader` read of `file.slice(0, 100)`: the file's
bytes, or an I/O error (`reader.onerror`). -/
inductive ReadResult where
  | ok (bytes : List Nat)
  | ioError
deriving Repr

/-- A `File` as this module observes it: `size` and `type` properties,
and the outcome of reading its contents. -/
structure JFile where
  size : Nat
  type : String
  readResult : ReadResult

/-- `detectActualFileType`: read the first 100 bytes (an I/O error
resolves to `null`), then run the signature/SVG detection. -/
def detectActualFileType (file : JFile) : Option SniffResult :=
  match file.readResult with
  | ReadResult.ioError => none
  | ReadResult.ok bytes => detectBytes (bytes.take 100)

/-- A claimed type `{ mimeType, name }`. -/
structure TypeInfo where
  mimeType : String
  name : String
deriving Repr, DecidableEq

/-- A validation verdict. JS objects carry only the fields each return
site sets; unset (or explicitly `null`) fields are `none`. -/
structure Verdict where
  valid : Bool
  error : Option String := none
  warning : Option String := none
  actualType : Option SniffResult := none
  claimedType : Option TypeInfo := none
  correctedType : Option SniffResult := none
deriving Repr, DecidableEq

/-- `MAX_SIZE` (50 MiB). -/
def MAX_SIZE : Nat := 50 * 1024 * 1024

/-- `validateFile` (synchronous stage). `Option JFile` models the
null/undefined file argument. -/
def validateFile : Option JFile → Verdict
  | none => { valid := false, error := some "No file selected" }
  | some file =>
    if MAX_SIZE < file.size then
      { valid := false, error := some "File size exceeds 50MB limit" }
    else if !(INPUT_FORMATS.map (·.mimeType)).contains file.type &&
        !strStartsWith file.type "image/" then
      { valid := false, error := some "Invalid file type. Please upload an image." }
    else
      { valid := true }

/-- `claimedFormat?.name || claimedMime`: the display label of the
declared MIME type — the `INPUT_FORMATS` name when the type is listed,
the raw MIME string otherwise. -/
def claimedNameOf (claimedMime : String) : String :=
  jsOrElse ((INPUT_FORMATS.find? (·.mimeType == claimedMime)).map (·.name)) claimedMime

/-- The warning template of the type-mismatch branch of
`validateFileWithSignature`. -/
def mismatchWarning (claimedName actualName : String) : String :=
  "File extension suggests " ++ claimedName ++ ", but actual content is " ++
    actualName ++ ". Using detected format."

/-- The warning template of the unverifiable-format branch. -/
def unableToVerifyWarning (label : String) : String :=
  "Unable to verify file format. Proceeding based on extension (" ++ label ++ ")"

/-- `validateFileWithSignature` (deep stage): basic validation first,
then sniff; a `null` sniff is allowed with a warning for declared
`image/*` types and rejected otherwise; a sniff differing from a truthy
declared MIME type is accepted with a warning and the sniffed type
exposed as `correctedType`. -/
def validateFileWithSignature (file : Option JFile) : Verdict :=
  let basicResult := validateFile file
  if basicResult.valid = false then basicResult
  else
    match file with
    | none => basicResult
    | some f =>
      let actualType := detectActualFileType f
      let claimedMime := f.type
      let claimedFormat := INPUT_FORMATS.find? (·.mimeType == claimedMime)
      match actualType with
      | none =>
        if strStartsWith claimedMime "image/" then
          { valid := true,
            warning := some (unableToVerifyWarning (claimedNameOf claimedMime)),
            claimedType := claimedFormat.map fun fmt =>
              { mimeType := claimedMime, name := fmt.name } }
        else
          { valid := false,
            error := some "Unrecognized file format. Please upload a valid image." }
      | some actual =>
        if claimedMime != "" && actual.mimeType != claimedMime then
          let claimedName := claimedNameOf claimedMime
          { valid := true,
            warning := some (mismatchWarning claimedName actual.name),
            actualType := some actual,
            claimedType := some { mimeType := claimedMime, name := claimedName },
            correctedType := some actual }
        else
          { valid := true,
            actualType := some actual,
            claimedType := claimedFormat.map fun fmt =>
              { mimeType := claimedMime, name := fmt.name } }

/-- An `HTMLImageElement` as `convertImage` observes it. -/
structure ImageEl where
  width : Nat
  height : Nat

/-- `ConversionSettings` as destructured by `convertImage` (`quality` is
only passed through to the encoder; `Option` models `undefined`). -/
structure ConversionSettings where
  format : String
  quality : Option ℚ := none
  width : Option Nat := none
  height : Option Nat := none

/-- JS `settings.width || image.width`: `undefined` and `0` are falsy. -/
def resolveDim (v : Option Nat) (fallback : Nat) : Nat :=
  match v with
  | some w => if w = 0 then fallback else w
  | none => fallback

/-- A `Blob`: encoded bytes tagged with a size and MIME type. -/
structure Blob where
  size : Nat
  type : String
deriving Repr, DecidableEq

/-- What the host's `canvas.toBlob` hands to the callback (a blob or
`null`), or a synchronous throw from the `toBlob` call itself. -/
inductive EncodeOutcome where
  | blob (b : Blob)
  | nullBlob
  | thrown (msg : String)

/-- The host rasterizer's behaviour for one conversion call:
does `getContext("2d")` return a context, does `drawImage` throw,
and what the encode step yields. -/
structure Host where
  ctxOk : Bool
  drawOk : Bool
  encodeOutcome : EncodeOutcome

/-- Observable pipeline steps, in the order `convertImage` performs
them: canvas (surface) acquisition, the white pre-fill for JPEG, the
draw call, the encode call. Guardrail checks emit no event — they
precede every event. -/
inductive PipeEvent where
  | acquireSurface (w h : Nat)
  | fillWhite
  | draw
  | encode (format : String)
deriving Repr, DecidableEq

/-- `MAX_DIMENSION` (per-side canvas ceiling). -/
def MAX_DIMENSION : Nat := 16384

/-- `MAX_PIXELS` (total-pixel ceiling, `16384 * 16384`). -/
def MAX_PIXELS : Nat := 268435456

/-- The dimension-guardrail error message. -/
def dimensionsError : String :=
  "Dimensions too large. Maximum is " ++ toString MAX_DIMENSION ++
    "px per side. Try reducing output dimensions."

/-- One-decimal megapixel figure `(totalPixels / 1000000).toFixed(1)`,
modelled by exact rounding to tenths. (The JS value is a double; for
every count reachable here the branch below is unreachable anyway, since
`MAX_PIXELS = MAX_DIMENSION ^ 2` makes the per-side check fire first.) -/
def megapixelsFixed1 (totalPixels : Nat) : String :=
  let tenths := (totalPixels * 10 + 500000) / 1000000
  toString (tenths / 10) ++ "." ++ toString (tenths % 10)

/-- The pixel-budget error message. -/
def pixelsError (totalPixels : Nat) : String :=
  "Total pixels (" ++ megapixelsFixed1 totalPixels ++
    "M) exceeds browser limit. Try reducing output dimensions."

/-- `convertImage`, with the trace of host-visible steps it performed:
guardrail checks, then canvas creation, context acquisition, optional
white fill for JPEG, draw (which may throw), encode via `toBlob`. -/
def convertImage (host : Host) (image : ImageEl) (settings : ConversionSettings) :
    Except String Blob × List PipeEvent :=
  let targetWidth := resolveDim settings.width image.width
  let targetHeight := resolveDim settings.height image.height
  let totalPixels := targetWidth * targetHeight
  if MAX_DIMENSION < targetWidth ∨ MAX_DIMENSION < targetHeight then
    (Except.error dimensionsError, [])
  else if MAX_PIXELS < totalPixels then
    (Except.error (pixelsError totalPixels), [])
  else
    let acquired := [PipeEvent.acquireSurface targetWidth targetHeight]
    if host.ctxOk = false then
      (Except.error "Failed to get canvas context. Browser may be out of memory.", acquired)
    else
      let filled := acquired ++
        (if settings.format == "image/jpeg" then [PipeEvent.fillWhite] else [])
      let drawn := filled ++ [PipeEvent.draw]
      if host.drawOk = false then
        (Except.error "Failed to draw image. The image may be corrupted or tainted by CORS.",
          drawn)
      else
        let encoded := drawn ++ [PipeEvent.encode settings.format]
        match host.encodeOutcome with
        | EncodeOutcome.blob b => (Except.ok b, encoded)
        | EncodeOutcome.nullBlob =>
          (Except.error ("Failed to encode as " ++ settings.format ++
            ". Try a different format or reduce dimensions/quality."), encoded)
        | EncodeOutcome.thrown msg =>
          (Except.error ("Encoding failed: " ++ msg), encoded)

/-- The full event sequence of a conversion that reaches the encoder. -/
def fullTrace (w h : Nat) (format : String) : List PipeEvent :=
  [PipeEvent.acquireSurface w h] ++
    (if format == "image/jpeg" then [PipeEvent.fillWhite] else []) ++
    [PipeEvent.draw, PipeEvent.encode format]

/-- A host on which every step succeeds (encoder returns a 1000-byte
blob of the requested type). -/
def stdHost (format : String) : Host :=
  { ctxOk := true, drawOk := true, encodeOutcome := EncodeOutcome.blob ⟨1000, format⟩ }

/-! ### Supporting lemmas -/

theorem beginsWith_self_append [BEq α] [LawfulBEq α] (pat rest : List α) :
    beginsWith pat (pat ++ rest) = true := by
  induction pat with
  | nil => rfl
  | cons p ps ih => simp [beginsWith, ih]

theorem listContains_middle [BEq α] [LawfulBEq α] (x pat y : List α) :
    listContains pat (x ++ pat ++ y) = true := by
  unfold listContains
  rw [List.any_eq_true]
  refine ⟨x.length, List.mem_range.mpr ?_, ?_⟩
  · simp only [List.append_assoc, List.length_append]
    omega
  · rw [List.append_assoc, List.drop_left]
    exact beginsWith_self_append pat y

/-- If the characters of `s` factor around those of `pat`, then
`strContains s pat`. -/
theorem strContains_of_split (s pat : String) (x y : List Char)
    (h : s.data = x ++ pat.data ++ y) : strContains s pat = true := by
  unfold strContains
  rw [h]
  exact listContains_middle x pat.data y

theorem ne_empty_of_data_ne_nil {s : String} (h : s.data ≠ []) : s ≠ "" := by
  intro he
  exact h (by rw [he])

theorem mismatchWarning_ne_empty (c a : String) : mismatchWarning c a ≠ "" := by
  apply ne_empty_of_data_ne_nil
  simp only [mismatchWarning, String.data_append]
  intro h
  rw [List.append_eq_nil] at h
  rcases h with ⟨h1, -⟩
  rw [List.append_eq_nil] at h1
  rcases h1 with ⟨h2, -⟩
  rw [List.append_eq_nil] at h2
  rcases h2 with ⟨h3, -⟩
  rw [List.append_eq_nil] at h3
  exact absurd h3.1 (by decide)

theorem unableToVerifyWarning_ne_empty (label : String) :
    unableToVerifyWarning label ≠ "" := by
  apply ne_empty_of_data_ne_nil
  simp only [unableToVerifyWarning, String.data_append]
  intro h
  rw [List.append_eq_nil] at h
  rcases h with ⟨h1, -⟩
  rw [List.append_eq_nil] at h1
  exact absurd h1.1 (by decide)

/-- The mismatch warning contains the claimed-format label. -/
theorem mismatchWarning_contains_claimed (c a : String) :
    strContains (mismatchWarning c a) c = true := by
  apply strContains_of_split _ _ ("File extension suggests ").data
    ((", but actual content is ").data ++ a.data ++ (". Using detected format.").data)
  simp [mismatchWarning, String.data_append]

/-- The mismatch warning contains the detected-format label. -/
theorem mismatchWarning_contains_actual (c a : String) :
    strContains (mismatchWarning c a) a = true := by
  apply strContains_of_split _ _
    (("File extension suggests ").data ++ c.data ++ (", but actual content is ").data)
    (". Using detected format.").data
  simp [mismatchWarning, String.data_append]

/-- Synchronous validation accepts exactly the present files within the
size ceiling whose declared type is listed or `image/*`-prefixed. -/
theorem validateFile_valid_iff (f : JFile) :
    (validateFile (some f)).valid = true ↔
      f.size ≤ MAX_SIZE ∧
        ((INPUT_FORMATS.map (·.mimeType)).contains f.type = true ∨
          strStartsWith f.type "image/" = true) := by
  simp only [validateFile]
  by_cases hs : MAX_SIZE < f.size
  · rw [if_pos hs]
    constructor
    · intro h
      exact absurd h Bool.false_ne_true
    · rintro ⟨h1, -⟩
      omega
  · rw [if_neg hs]
    by_cases hc : (!(INPUT_FORMATS.map (·.mimeType)).contains f.type &&
        !strStartsWith f.type "image/") = true
    · rw [if_pos hc]
      rw [Bool.and_eq_true, Bool.not_eq_true', Bool.not_eq_true'] at hc
      constructor
      · intro h
        exact absurd h Bool.false_ne_true
      · rintro ⟨-, h | h⟩
        · rw [hc.1] at h
          exact absurd h Bool.false_ne_true
        · rw [hc.2] at h
          exact absurd h Bool.false_ne_true
    · rw [if_neg hc]
      constructor
      · intro _
        refine ⟨by omega, ?_⟩
        by_cases h1 : (INPUT_FORMATS.map (·.mimeType)).contains f.type = true
        · exact Or.inl h1
        · refine Or.inr ?_
          have hb : (INPUT_FORMATS.map (·.mimeType)).contains f.type = false :=
            Bool.eq_false_iff.mpr h1
          cases hw : strStartsWith f.type "image/" with
          | true => rfl
          | false =>
            refine absurd ?_ hc
            rw [Bool.and_eq_true, Bool.not_eq_true', Bool.not_eq_true']
            exact ⟨hb, hw⟩
      · intro _
        rfl

/-- Every declared type the synchronous stage accepts starts with
`image/` (every listed input MIME type does). -/
theorem valid_type_starts_image {f : JFile}
    (h : (validateFile (some f)).valid = true) :
    strStartsWith f.type "image/" = true := by
  rcases (validateFile_valid_iff f).mp h with ⟨-, hc | hsw⟩
  · have hmem : f.type ∈ INPUT_FORMATS.map (·.mimeType) := List.elem_iff.mp hc
    have hall : ∀ t ∈ INPUT_FORMATS.map (·.mimeType),
        strStartsWith t "image/" = true := by decide
    exact hall _ hmem
  · exact hsw

/-- A declared type that starts with `image/` is a truthy (non-empty)
string. -/
theorem ne_empty_of_starts_image {t : String}
    (h : strStartsWith t "image/" = true) : (t != "") = true := by
  cases ht : t == "" with
  | false => simp [bne, ht]
  | true =>
    have : t = "" := eq_of_beq ht
    rw [this] at h
    exact absurd h (by decide)

/-- `find?` returns the first element satisfying the predicate: if the
element at index `i` satisfies it and no earlier element does, `find?`
returns it. -/
theorem find?_of_first_match (p : α → Bool) (l : List α) (i : Nat) (a : α)
    (ha : l[i]? = some a) (hp : p a = true)
    (hfirst : ∀ j b, j < i → l[j]? = some b → p b = false) :
    l.find? p = some a := by
  induction l generalizing i with
  | nil => simp at ha
  | cons x xs ih =>
    cases i with
    | zero =>
      simp only [List.getElem?_cons_zero, Option.some.injEq] at ha
      subst ha
      simp [List.find?, hp]
    | succ n =>
      have hx : p x = false := hfirst 0 x (Nat.succ_pos n) (by simp)
      simp only [List.find?, hx]
      exact ih n (by simpa using ha)
        (fun j b hj hb => hfirst (j + 1) b (by omega) (by simpa using hb))

/-- A 12-byte all-zero file declared `application/octet-stream`
(Scenario E's input). -/
def zeroOctetFile : JFile :=
  { size := 12, type := "application/octet-stream",
    readResult := ReadResult.ok (List.replicate 12 0) }

/-- The 12-byte JFIF header of Scenario A. -/
def jfifBytes : List Nat :=
  [0xff, 0xd8, 0xff, 0xe0, 0x00, 0x10, 0x4a, 0x46, 0x49, 0x46, 0x00, 0x01]

/-! ### Claim theorems -/

/-- C7: for every byte buffer strictly shorter than a table entry's
signature, that entry never matches — the out-of-range reads compare
`undefined` (`none`) against signature bytes, so neither the signature
loop nor the full descriptor check succeeds, and `find?` inside the
sniffer can never select that entry. -/
theorem short_buffer_never_matches (bytes : List Nat) (d : FormatSig)
    (_hmem : d ∈ FILE_SIGNATURES) (hlen : bytes.length < d.signature.length) :
    sigMatches bytes d.signature = false ∧ descrMatches bytes d = false ∧
      FILE_SIGNATURES.find? (descrMatches bytes) ≠ some d := by
  have hsig : sigMatches bytes d.signature = false := by
    rw [Bool.eq_false_iff]
    intro hall
    unfold sigMatches at hall
    rw [List.all_eq_true] at hall
    have h1 := hall bytes.length (List.mem_range.mpr hlen)
    rw [List.getElem?_eq_none (le_refl _), List.getElem?_eq_getElem hlen] at h1
    exact absurd h1 (by simp)
  have hdescr : descrMatches bytes d = false := by
    unfold descrMatches
    rw [hsig, Bool.false_and]
  refine ⟨hsig, hdescr, fun hf => ?_⟩
  have := List.find?_some hf
  rw [hdescr] at this
  exact absurd this Bool.false_ne_true

/-- C7 witness: a one-byte buffer is shorter than the three-byte JPEG
signature and does not match it. -/
theorem short_buffer_never_matches_witness :
    sigMatches [0xff]
      ({ signature := [0xff, 0xd8, 0xff], mimeType := "image/jpeg",
         name := "JPEG", additionalCheck := none } : FormatSig).signature = false :=
  (short_buffer_never_matches [0xff]
    { signature := [0xff, 0xd8, 0xff], mimeType := "image/jpeg",
      name := "JPEG", additionalCheck := none }
    (List.Mem.head _) (by decide)).1

/-- C9: `validateFile` accepts a file of exactly `MAX_SIZE = 52428800`
bytes (50 MiB) with an acceptable declared type, rejects every file of
52428801 bytes, and the rejection message mentions the 50MB limit. -/
theorem size_ceiling_boundary :
    MAX_SIZE = 52428800 ∧
    (∀ f : JFile, f.size = 52428800 →
      ((INPUT_FORMATS.map (·.mimeType)).contains f.type = true ∨
        strStartsWith f.type "image/" = true) →
      validateFile (some f) = { valid := true }) ∧
    (∀ f : JFile, f.size = 52428801 →
      validateFile (some f) =
        { valid := false, error := some "File size exceeds 50MB limit" }) ∧
    strContains "File size exceeds 50MB limit" "50MB" = true := by
  refine ⟨rfl, ?_, ?_, by decide⟩
  · intro f hsize htype
    simp only [validateFile]
    rw [if_neg (by rw [hsize]; decide)]
    have hcond : ¬((!(INPUT_FORMATS.map (·.mimeType)).contains f.type &&
        !strStartsWith f.type "image/") = true) := by
      rw [Bool.and_eq_true, Bool.not_eq_true', Bool.not_eq_true']
      rintro ⟨h1, h2⟩
      rcases htype with h | h
      · rw [h1] at h
        exact absurd h Bool.false_ne_true
      · rw [h2] at h
        exact absurd h Bool.false_ne_true
    rw [if_neg hcond]
  · intro f hsize
    simp only [validateFile]
    rw [if_pos (by rw [hsize]; decide)]

/-- C9 witness: a 52428800-byte `image/png` file is accepted; a
52428801-byte one is rejected with the 50MB message. -/
theorem size_ceiling_boundary_witness :
    validateFile (some { size := 52428800, type := "image/png",
                         readResult := ReadResult.ok [] }) = { valid := true } ∧
    validateFile (some { size := 52428801, type := "image/png",
                         readResult := ReadResult.ok [] }) =
      { valid := false, error := some "File size exceeds 50MB limit" } :=
  ⟨size_ceiling_boundary.2.1 _ rfl (by decide), size_ceiling_boundary.2.2.1 _ rfl⟩

/-- C3 counterexample: on the 12-byte all-zero file declared
`application/octet-stream`, `validateFileWithSignature` does reject
(`valid = false`) but its error is not the deep-stage
"Unrecognized file format" message claimed. -/
theorem zeroOctet_error_not_unrecognized :
    ((validateFileWithSignature (some zeroOctetFile)).error ==
      some "Unrecognized file format. Please upload a valid image.") = false ∧
    (validateFileWithSignature (some zeroOctetFile)).valid = false := by decide

/-- C3 amended: the all-zero `application/octet-stream` file is rejected
by the synchronous type check ("Invalid file type. Please upload an
image.") before the deep stage runs; its sniff is indeed `null` and its
type is non-image, but the deep-stage "Unrecognized file format"
rejection is unreachable on every input, because every declared type the
synchronous stage accepts starts with `image/`. -/
theorem zeroOctet_rejected_by_sync_stage :
    validateFileWithSignature (some zeroOctetFile) =
      { valid := false, error := some "Invalid file type. Please upload an image." } ∧
    validateFile (some zeroOctetFile) =
      { valid := false, error := some "Invalid file type. Please upload an image." } ∧
    detectActualFileType zeroOctetFile = none ∧
    strStartsWith zeroOctetFile.type "image/" = false ∧
    (∀ f : Option JFile, ((validateFileWithSignature f).error ==
      some "Unrecognized file format. Please upload a valid image.") = false) := by
  refine ⟨by decide, by decide, by decide, by decide, ?_⟩
  intro f
  cases f with
  | none => decide
  | some file =>
    by_cases hv : (validateFile (some file)).valid = true
    · have himg := valid_type_starts_image hv
      simp only [validateFileWithSignature]
      rw [if_neg (by rw [hv]; exact fun h => absurd h.symm Bool.false_ne_true)]
      cases hd : detectActualFileType file with
      | none =>
        simp only [hd]
        rw [if_pos himg]
        rfl
      | some actual =>
        simp only [hd]
        split <;> rfl
    · simp only [validateFileWithSignature]
      rw [if_pos (Bool.eq_false_iff.mpr hv)]
      simp only [validateFile]
      split
      · rfl
      · split <;> rfl

/-- C6: whenever the entry at index `i` of the signature table matches a
buffer (signature bytes and `additionalCheck`) and no earlier entry
does, the sniffer resolves to that entry's MIME type and display name;
in particular the 12-byte JFIF header sniffs as JPEG. -/
theorem first_matching_signature_wins :
    (∀ (bytes : List Nat) (i : Nat) (d : FormatSig),
      FILE_SIGNATURES[i]? = some d →
      descrMatches bytes d = true →
      (∀ j d', j < i → FILE_SIGNATURES[j]? = some d' → descrMatches bytes d' = false) →
      detectBytes bytes =
        some { mimeType := d.mimeType, name := d.name, detectedFrom := "file-signature" }) ∧
    detectBytes jfifBytes =
      some { mimeType := "image/jpeg", name := "JPEG", detectedFrom := "file-signature" } := by
  refine ⟨?_, by decide⟩
  intro bytes i d hd hmatch hfirst
  have hfind := find?_of_first_match (descrMatches bytes) FILE_SIGNATURES i d hd hmatch hfirst
  simp only [detectBytes]
  rw [hfind]

/-- C6 witness: the JFIF header instantiates the general statement at
index 0 (the JPEG entry), where no earlier entry exists. -/
theorem first_matching_signature_wins_witness :
    detectBytes jfifBytes =
      some { mimeType := "image/jpeg", name := "JPEG", detectedFrom := "file-signature" } :=
  first_matching_signature_wins.1 jfifBytes 0
    { signature := [0xff, 0xd8, 0xff], mimeType := "image/jpeg",
      name := "JPEG", additionalCheck := none }
    rfl (by decide) (fun j _ hj _ => absurd hj (Nat.not_lt_zero j))

/-- A file declared `image/jpeg` whose bytes begin with the PNG
signature (Scenario B's input). -/
def jpegDeclaredPngFile : JFile :=
  { size := 1024, type := "image/jpeg",
    readResult := ReadResult.ok
      [0x89, 0x50, 0x4e, 0x47, 0x0d, 0x0a, 0x1a, 0x0a, 0, 0, 0, 0] }

/-- C1: whenever synchronous validation succeeds and the sniffed type
differs from the declared MIME type, `validateFileWithSignature` accepts
with exactly the mismatch warning — which is non-empty and names both
the claimed and the detected format — and exposes the sniffed type as
`correctedType`; Scenario B (declared `image/jpeg`, PNG bytes) yields
`valid`, a warning mentioning "JPEG" and "PNG", and a corrected MIME
type of `image/png`. -/
theorem mismatch_accepted_with_warning :
    (∀ (f : JFile) (actual : SniffResult),
      (validateFile (some f)).valid = true →
      detectActualFileType f = some actual →
      actual.mimeType ≠ f.type →
      validateFileWithSignature (some f) =
        { valid := true,
          warning := some (mismatchWarning (claimedNameOf f.type) actual.name),
          actualType := some actual,
          claimedType := some { mimeType := f.type, name := claimedNameOf f.type },
          correctedType := some actual } ∧
      mismatchWarning (claimedNameOf f.type) actual.name ≠ "" ∧
      strContains (mismatchWarning (claimedNameOf f.type) actual.name)
        (claimedNameOf f.type) = true ∧
      strContains (mismatchWarning (claimedNameOf f.type) actual.name)
        actual.name = true) ∧
    (validateFileWithSignature (some jpegDeclaredPngFile)).valid = true ∧
    (validateFileWithSignature (some jpegDeclaredPngFile)).warning =
      some (mismatchWarning "JPEG" "PNG") ∧
    strContains (mismatchWarning "JPEG" "PNG") "JPEG" = true ∧
    strContains (mismatchWarning "JPEG" "PNG") "PNG" = true ∧
    mismatchWarning "JPEG" "PNG" ≠ "" ∧
    (validateFileWithSignature (some jpegDeclaredPngFile)).correctedType.map
      (·.mimeType) = some "image/png" := by
  refine ⟨?_, by decide, by decide, by decide, by decide, by decide, by decide⟩
  intro f actual hv hd hm
  have hne : (f.type != "") = true := ne_empty_of_starts_image (valid_type_starts_image hv)
  have hmb : (actual.mimeType != f.type) = true := by
    cases hq : actual.mimeType == f.type with
    | false => simp [bne, hq]
    | true => exact absurd (eq_of_beq hq) hm
  refine ⟨?_, mismatchWarning_ne_empty _ _, mismatchWarning_contains_claimed _ _,
    mismatchWarning_contains_actual _ _⟩
  simp only [validateFileWithSignature]
  rw [if_neg (by rw [hv]; exact fun h => absurd h.symm Bool.false_ne_true)]
  simp only [hd]
  rw [if_pos (by rw [Bool.and_eq_true]; exact ⟨hne, hmb⟩)]

/-- C1 witness: Scenario B's file instantiates the general statement. -/
theorem mismatch_accepted_with_warning_witness :
    validateFileWithSignature (some jpegDeclaredPngFile) =
      { valid := true,
        warning := some (mismatchWarning (claimedNameOf "image/jpeg") "PNG"),
        actualType := some { mimeType := "image/png", name := "PNG",
                             detectedFrom := "file-signature" },
        claimedType := some { mimeType := "image/jpeg",
                              name := claimedNameOf "image/jpeg" },
        correctedType := some { mimeType := "image/png", name := "PNG",
                                detectedFrom := "file-signature" } } :=
  (mismatch_accepted_with_warning.1 jpegDeclaredPngFile
    { mimeType := "image/png", name := "PNG", detectedFrom := "file-signature" }
    (by decide) (by decide) (by decide)).1

/-- The verdict invariant of the spec, as a boolean predicate:
an invalid verdict carries a non-empty error, and a warning may only be
present on a valid verdict. -/
def verdictOk (v : Verdict) : Bool :=
  (v.valid ||
    (match v.error with
     | some e => !(e == "")
     | none => false)) &&
  (!v.warning.isSome || v.valid)

theorem verdictOk_validateFile (f : Option JFile) :
    verdictOk (validateFile f) = true := by
  cases f with
  | none => decide
  | some file =>
    simp only [validateFile]
    split
    · decide
    · split
      · decide
      · decide

/-- C2: every verdict either validator returns satisfies the invariant:
`valid = false` implies a non-empty `error`, and `warning` is only ever
set together with `valid = true`. -/
theorem verdict_invariant (f : Option JFile) :
    verdictOk (validateFile f) = true ∧
      verdictOk (validateFileWithSignature f) = true := by
  refine ⟨verdictOk_validateFile f, ?_⟩
  cases f with
  | none => decide
  | some file =>
    simp only [validateFileWithSignature]
    split
    · exact verdictOk_validateFile (some file)
    · cases hd : detectActualFileType file with
      | none =>
        simp only [hd]
        split
        · rfl
        · decide
      | some actual =>
        simp only [hd]
        split <;> rfl

/-- C2 has universally quantified data but no propositional hypothesis;
this instance records the invariant on a concrete mismatched file. -/
theorem verdict_invariant_witness :
    verdictOk (validateFile (some jpegDeclaredPngFile)) = true ∧
      verdictOk (validateFileWithSignature (some jpegDeclaredPngFile)) = true :=
  verdict_invariant (some jpegDeclaredPngFile)

/-- C8: the sniffer never fails: an I/O error on the byte read resolves
to `null` exactly like an unknown format, and a buffer matching no
signature and carrying no SVG text marker resolves to `null`. -/
theorem sniffer_resolves_null_gracefully :
    (∀ f : JFile, f.readResult = ReadResult.ioError → detectActualFileType f = none) ∧
    (∀ (f : JFile) (bytes : List Nat), f.readResult = ReadResult.ok bytes →
      (FILE_SIGNATURES.all fun d => !descrMatches (bytes.take 100) d) = true →
      hasSvgMarker (bytes.take 100) = false →
      detectActualFileType f = none) := by
  constructor
  · intro f h
    unfold detectActualFileType
    rw [h]
  · intro f bytes hread hall hsvg
    unfold detectActualFileType
    rw [hread]
    show detectBytes (bytes.take 100) = none
    have hfind : FILE_SIGNATURES.find? (descrMatches (bytes.take 100)) = none := by
      rw [List.find?_eq_none]
      intro x hx
      rw [List.all_eq_true] at hall
      have hx2 := hall x hx
      rw [Bool.not_eq_true'] at hx2
      rw [hx2]
      exact Bool.false_ne_true
    simp only [detectBytes]
    rw [hfind, if_neg (by rw [hsvg]; exact Bool.false_ne_true)]

/-- C8 witness: an I/O-erroring file and the unknown all-zero buffer
both resolve to `null`. -/
theorem sniffer_resolves_null_gracefully_witness :
    detectActualFileType { size := 0, type := "", readResult := ReadResult.ioError } = none ∧
    detectActualFileType { size := 12, type := "application/octet-stream",
                           readResult := ReadResult.ok (List.replicate 12 0) } = none :=
  ⟨sniffer_resolves_null_gracefully.1 _ rfl,
   sniffer_resolves_null_gracefully.2 _ (List.replicate 12 0) rfl (by decide) (by decide)⟩

/-- C10: every zero-byte file declared with an `image/*` MIME type is
accepted by `validateFileWithSignature` with the non-empty
unable-to-verify warning (the empty buffer sniffs to `null` and the
declared-image fallback applies). -/
theorem empty_image_file_accepted (f : JFile)
    (hsize : f.size = 0) (hread : f.readResult = ReadResult.ok [])
    (himg : strStartsWith f.type "image/" = true) :
    (validateFileWithSignature (some f)).valid = true ∧
    (validateFileWithSignature (some f)).warning =
      some (unableToVerifyWarning (claimedNameOf f.type)) ∧
    unableToVerifyWarning (claimedNameOf f.type) ≠ "" := by
  have hv : (validateFile (some f)).valid = true := by
    rw [validateFile_valid_iff]
    refine ⟨by rw [hsize]; exact Nat.zero_le _, Or.inr himg⟩
  have hd : detectActualFileType f = none := by
    unfold detectActualFileType
    rw [hread]
    decide
  simp only [validateFileWithSignature]
  rw [if_neg (by rw [hv]; exact fun h => absurd h.symm Bool.false_ne_true)]
  simp only [hd]
  rw [if_pos himg]
  exact ⟨rfl, rfl, unableToVerifyWarning_ne_empty _⟩

/-- C10 witness: the zero-byte `image/png`-declared file is accepted
with the unable-to-verify warning. -/
theorem empty_image_file_accepted_witness :
    (validateFileWithSignature (some { size := 0, type := "image/png",
                                       readResult := ReadResult.ok [] })).valid = true ∧
    (validateFileWithSignature (some { size := 0, type := "image/png",
                                       readResult := ReadResult.ok [] })).warning =
      some (unableToVerifyWarning (claimedNameOf "image/png")) ∧
    unableToVerifyWarning (claimedNameOf "image/png") ≠ "" :=
  empty_image_file_accepted _ rfl rfl (by decide)

/-- C4: target dimensions of exactly 16384 by 16384 pass both guardrail
checks (the conversion completes on a healthy host); one pixel over
either side fails with the dimensions error; and every pair of sides
each strictly under the per-side ceiling has a product within the pixel
ceiling — `MAX_PIXELS = MAX_DIMENSION ^ 2` — so the claim's
over-budget-with-small-sides case holds vacuously: no such pair exists,
and for any such pair the call would fail on the pixel-budget check. -/
theorem dimension_and_pixel_ceiling_boundary :
    (convertImage (stdHost "image/png") { width := 100, height := 100 }
        { format := "image/png", width := some 16384, height := some 16384 }).1 =
      Except.ok { size := 1000, type := "image/png" } ∧
    (convertImage (stdHost "image/png") { width := 100, height := 100 }
        { format := "image/png", width := some 16385, height := some 16384 }).1 =
      Except.error dimensionsError ∧
    (convertImage (stdHost "image/png") { width := 100, height := 100 }
        { format := "image/png", width := some 16384, height := some 16385 }).1 =
      Except.error dimensionsError ∧
    (∀ w h : Nat, w < MAX_DIMENSION → h < MAX_DIMENSION → w * h ≤ MAX_PIXELS) ∧
    (∀ w h : Nat, w < MAX_DIMENSION → h < MAX_DIMENSION → MAX_PIXELS < w * h →
      (convertImage (stdHost "image/png") { width := 100, height := 100 }
          { format := "image/png", width := some w, height := some h }).1 =
        Except.error (pixelsError (w * h))) := by
  have hbound : ∀ w h : Nat, w < MAX_DIMENSION → h < MAX_DIMENSION →
      w * h ≤ MAX_PIXELS := by
    intro w h hw hh
    have h1 : w ≤ 16383 := by
      unfold MAX_DIMENSION at hw
      omega
    have h2 : h ≤ 16383 := by
      unfold MAX_DIMENSION at hh
      omega
    calc w * h ≤ 16383 * 16383 := Nat.mul_le_mul h1 h2
      _ ≤ MAX_PIXELS := by decide
  refine ⟨by rfl, by rfl, by rfl, hbound, ?_⟩
  intro w h hw hh hpx
  exact absurd hpx (Nat.not_lt.mpr (hbound w h hw hh))

/-- C4 witness: the pixel-budget bound instantiated at small sides
(the over-budget premise itself is unsatisfiable under the per-side
ceiling, which is what the bound records). -/
theorem dimension_and_pixel_ceiling_boundary_witness :
    100 * 100 ≤ MAX_PIXELS :=
  dimension_and_pixel_ceiling_boundary.2.2.2.1 100 100 (by decide) (by decide)

/-- C5: converting with 20000-by-20000 target dimensions fails with the
dimensions error and an empty event trace (before any surface, draw or
encode step; the message names the 16384 ceiling); every conversion's
event trace is a prefix of acquire → (fill) → draw → encode, so no step
is skipped or reordered; and whenever a guardrail fires the trace is
empty and the call fails. -/
theorem conversion_pipeline_ordering :
    (∀ (host : Host) (image : ImageEl),
      convertImage host image
        { format := "image/png", width := some 20000, height := some 20000 } =
        (Except.error dimensionsError, [])) ∧
    strContains dimensionsError "16384" = true ∧
    (∀ (host : Host) (image : ImageEl) (settings : ConversionSettings),
      ∃ rest, fullTrace (resolveDim settings.width image.width)
          (resolveDim settings.height image.height) settings.format =
        (convertImage host image settings).2 ++ rest) ∧
    (∀ (host : Host) (image : ImageEl) (settings : ConversionSettings),
      (MAX_DIMENSION < resolveDim settings.width image.width ∨
        MAX_DIMENSION < resolveDim settings.height image.height ∨
        MAX_PIXELS < resolveDim settings.width image.width *
          resolveDim settings.height image.height) →
      (convertImage host image settings).2 = [] ∧
      ∃ e, (convertImage host image settings).1 = Except.error e) := by
  refine ⟨fun host image => rfl, by decide, ?_, ?_⟩
  · intro host image s
    simp only [convertImage]
    split
    · exact ⟨fullTrace (resolveDim s.width image.width)
        (resolveDim s.height image.height) s.format, by simp⟩
    · split
      · exact ⟨fullTrace (resolveDim s.width image.width)
          (resolveDim s.height image.height) s.format, by simp⟩
      · split
        · refine ⟨(if s.format == "image/jpeg" then [PipeEvent.fillWhite] else []) ++
            [PipeEvent.draw, PipeEvent.encode s.format], ?_⟩
          simp [fullTrace]
        · split
          · refine ⟨[PipeEvent.encode s.format], ?_⟩
            simp [fullTrace, List.append_assoc]
          · split <;> exact ⟨[], by simp [fullTrace, List.append_assoc]⟩
  · intro host image s h
    by_cases h1 : (MAX_DIMENSION < resolveDim s.width image.width ∨
        MAX_DIMENSION < resolveDim s.height image.height)
    · refine ⟨?_, dimensionsError, ?_⟩ <;>
        · simp only [convertImage]
          rw [if_pos h1]
    · have h2 : MAX_PIXELS < resolveDim s.width image.width *
          resolveDim s.height image.height := by
        rcases h with h | h | h
        · exact absurd (Or.inl h) h1
        · exact absurd (Or.inr h) h1
        · exact h
      refine ⟨?_, pixelsError (resolveDim s.width image.width *
          resolveDim s.height image.height), ?_⟩ <;>
        · simp only [convertImage]
          rw [if_neg h1, if_pos h2]

/-- C5 witness: the 20000-by-20000 request fires the guardrail with an
empty trace and an error. -/
theorem conversion_pipeline_ordering_witness :
    (convertImage (stdHost "image/png") { width := 100, height := 100 }
        { format := "image/png", width := some 20000, height := some 20000 }).2 = [] ∧
    ∃ e, (convertImage (stdHost "image/png") { width := 100, height := 100 }
        { format := "image/png", width := some 20000, height := some 20000 }).1 =
      Except.error e :=
  conversion_pipeline_ordering.2.2.2 (stdHost "image/png") { width := 100, height := 100 }
    { format := "image/png", width := some 20000, height := some 20000 }
    (Or.inl (by decide))

end ImageUtils
